import Mathlib

/-!
Shallow embedding of the lead-scoring pipeline of `src/main.py`
(intent_scoring_api): the rule scorer, the intent classifier with its
delegated and heuristic fallback paths, the score aggregator, and the
batch scoring endpoint over the process-wide state.

Python strings are modelled as Lean `String`; Python `in` (substring
containment) is `containsSub`; Python `str.strip` is `trimStr`,
`str.lower` is `toLowerStr` (ASCII case folding, which covers every
keyword the source compares against), `str.capitalize` is `capitalize`.
The external network call of the delegated classifier path is abstracted
as a `CallResult`: either an exception (network error, non-2xx status via
`raise_for_status`, JSON decoding error) carrying its message, or the
extracted response text (the nested extraction `try` in the source never
fails outward: it falls back to stringifying the payload, so a success
always carries some text string).
-/

/-- Python `startswith` on character lists: `startsWithList hay needle`. -/
def startsWithList : List Char → List Char → Bool
  | _, [] => true
  | [], _ :: _ => false
  | a :: as, b :: bs => a == b && startsWithList as bs

/-- Python substring containment `needle in hay`, on character lists. -/
def containsList (needle : List Char) : List Char → Bool
  | [] => needle.isEmpty
  | h :: t => startsWithList (h :: t) needle || containsList needle t

/-- Python `needle in hay` for strings. -/
def containsSub (hay needle : String) : Bool :=
  containsList needle.data hay.data

/-- Python `str.lower` (ASCII case folding). -/
def toLowerStr (s : String) : String :=
  String.mk (s.data.map Char.toLower)

/-- Python `str.strip`: drop leading and trailing whitespace. -/
def trimStr (s : String) : String :=
  String.mk (((s.data.dropWhile Char.isWhitespace).reverse.dropWhile Char.isWhitespace).reverse)

/-- Python `str.startswith` for strings. -/
def startsWithStr (s pre : String) : Bool :=
  startsWithList s.data pre.data

/-- Decimal digit character. -/
def digitChar (d : Nat) : Char :=
  Char.ofNat (48 + d)

/-- Fuel-driven decimal printer (the fuel `n + 1` always suffices). -/
def natToStrAux : Nat → Nat → List Char
  | 0, _ => []
  | fuel + 1, n =>
    if n < 10 then [digitChar n]
    else natToStrAux fuel (n / 10) ++ [digitChar (n % 10)]

/-- Decimal rendering of a natural number, as Python `str`. -/
def natToStr (n : Nat) : String :=
  String.mk (natToStrAux (n + 1) n)

/-- Python `sep.join(parts)`. -/
def joinWithSep (sep : String) : List String → String
  | [] => ""
  | [x] => x
  | x :: y :: rest => x ++ sep ++ joinWithSep sep (y :: rest)

/-- Python `str.split` on a single separator character. -/
def splitOnChar (c : Char) : List Char → List (List Char)
  | [] => [[]]
  | h :: t =>
    if h = c then [] :: splitOnChar c t
    else
      match splitOnChar c t with
      | [] => [[h]]
      | grp :: rest => (h :: grp) :: rest

/-- `Offer` pydantic model (src/main.py lines 56-59). -/
structure Offer where
  name : String
  value_props : List String
  ideal_use_cases : List String
  deriving DecidableEq, Repr

/-- `Lead` pydantic model (src/main.py lines 61-67). -/
structure Lead where
  name : String
  role : String
  company : String
  industry : String
  location : String
  linkedin_bio : String
  deriving DecidableEq, Repr

/-- `ScoredLead` pydantic model (src/main.py lines 69-80). -/
structure ScoredLead where
  name : String
  role : String
  company : String
  industry : String
  location : String
  linkedin_bio : String
  intent : String
  score : Nat
  reasoning : String
  rule_score : Nat
  ai_score : Nat
  deriving DecidableEq, Repr

/-- Decision-maker keyword list of `calculate_role_score` (lines 88-91). -/
def decision_makers : List String :=
  ["ceo", "cto", "cfo", "cmo", "coo", "president", "founder", "owner",
   "head of", "director", "vp", "vice president", "chief"]

/-- Influencer keyword list of `calculate_role_score` (lines 94-96). -/
def influencers : List String :=
  ["manager", "lead", "senior", "principal", "architect", "specialist"]

/-- `calculate_role_score` (lines 83-106): first matching keyword group
wins, decision makers checked before influencers. -/
def calculate_role_score (role : String) : Nat :=
  let role_lower := toLowerStr role
  if decision_makers.any (fun kw => containsSub role_lower kw) then 20
  else if influencers.any (fun kw => containsSub role_lower kw) then 10
  else 0

/-- Adjacent-industry keyword list of `calculate_industry_score` (line 119). -/
def adjacent_keywords : List String :=
  ["tech", "software", "saas", "technology", "digital", "online"]

/-- `calculate_industry_score` (lines 108-124): bidirectional substring
match against the ideal use cases, else adjacent keywords. -/
def calculate_industry_score (industry : String) (ideal_use_cases : List String) : Nat :=
  let industry_lower := toLowerStr industry
  if ideal_use_cases.any (fun use_case =>
      let use_case_lower := toLowerStr use_case
      containsSub use_case_lower industry_lower || containsSub industry_lower use_case_lower) then 20
  else if adjacent_keywords.any (fun kw => containsSub industry_lower kw) then 10
  else 0

/-- Python truthiness of `field and field.strip()`: the field is counted
as complete iff it is non-blank after trimming whitespace. -/
def isComplete (field : String) : Bool :=
  trimStr field ≠ ""

/-- The six fields inspected by `calculate_data_completeness_score` (line 128). -/
def leadFields (lead : Lead) : List String :=
  [lead.name, lead.role, lead.company, lead.industry, lead.location, lead.linkedin_bio]

/-- `calculate_data_completeness_score` (lines 126-130). -/
def calculate_data_completeness_score (lead : Lead) : Nat :=
  min 10 (((leadFields lead).filter isComplete).length * 2)

/-- High-intent role keyword list of the heuristic fallback (line 145). -/
def high_intent_roles : List String :=
  ["ceo", "cto", "founder", "head of", "director", "vp"]

/-- High-intent industry keyword list of the heuristic fallback (line 146). -/
def high_intent_industries : List String :=
  ["saas", "technology", "software", "tech"]

/-- Heuristic fallback branch of `get_ai_score` (lines 139-153), taken
when no external-service credential is configured. -/
def get_ai_score_fallback (lead : Lead) : Nat × String :=
  let role_lower := toLowerStr lead.role
  let industry_lower := toLowerStr lead.industry
  if high_intent_roles.any (fun r => containsSub role_lower r) &&
     high_intent_industries.any (fun ind => containsSub industry_lower ind) then
    (50, "Heuristic: decision-maker in tech industry")
  else if high_intent_roles.any (fun r => containsSub role_lower r) then
    (40, "Heuristic: decision-maker role")
  else if high_intent_industries.any (fun ind => containsSub industry_lower ind) then
    (35, "Heuristic: tech industry match")
  else
    (20, "AI disabled: heuristic based on role/industry")

/-- Outcome of the external classifier call inside the delegated path:
either an exception (network failure, non-success HTTP status raised by
`raise_for_status`, JSON error) with its message, or the response text
handed to the line parser. -/
inductive CallResult where
  | failure (msg : String)
  | success (response_text : String)
  deriving DecidableEq, Repr

/-- Python `line.split(":", 1)[1]`: everything after the first colon.
Only reached under a guard ensuring the line contains a colon. -/
def afterFirstColonList : List Char → List Char
  | [] => []
  | h :: t => if h = ':' then t else afterFirstColonList t

/-- String version of `afterFirstColonList`. -/
def afterFirstColon (line : String) : String :=
  String.mk (afterFirstColonList line.data)

/-- Python `str.capitalize`: first character uppercased, rest lowercased. -/
def capitalize (s : String) : String :=
  match s.data with
  | [] => ""
  | c :: cs => String.mk (c.toUpper :: cs.map Char.toLower)

/-- One iteration of the response-parsing loop (lines 202-206); the
accumulator is the current `(intent, reasoning)` pair. -/
def parseStep (acc : String × String) (line : String) : String × String :=
  let ls := toLowerStr (trimStr line)
  if startsWithStr ls "intent:" then
    (capitalize (trimStr (afterFirstColon line)), acc.2)
  else if startsWithStr ls "reasoning:" then
    (acc.1, trimStr (afterFirstColon line))
  else acc

/-- The response-parsing loop of the delegated path (lines 200-206):
scan the lines, last labelled line wins, defaults `("Medium", "")`. -/
def parseResponse (response_text : String) : String × String :=
  ((splitOnChar (Char.ofNat 10) response_text.data).map String.mk).foldl parseStep ("Medium", "")

/-- `intent_scores.get(intent, 30)` with `{"High": 50, "Medium": 30, "Low": 10}`
(lines 208-209). -/
def intent_scores_get (intent : String) : Nat :=
  if intent = "High" then 50
  else if intent = "Medium" then 30
  else if intent = "Low" then 10
  else 30

/-- Delegated branch of `get_ai_score` (lines 155-217): parse the call
result; any exception is absorbed into the fixed degraded score 25 with a
reasoning string naming the failure (lines 214-217). -/
def get_ai_score_delegated (res : CallResult) : Nat × String :=
  match res with
  | .failure msg => (25, "AI scoring failed: " ++ msg)
  | .success response_text =>
    let parsed := parseResponse response_text
    let score := intent_scores_get parsed.1
    let reasoning := if parsed.2 = "" then "AI provided no explanation" else parsed.2
    (score, reasoning)

/-- Which classifier path is active for a call: the heuristic fallback
(no credential) or the delegated path together with the outcome of its
external call. -/
inductive AiEnv where
  | noKey
  | withKey (res : CallResult)
  deriving DecidableEq, Repr

/-- `get_ai_score` (lines 132-217). The offer only feeds the prompt of
the external call and never influences the returned pair. -/
def get_ai_score (env : AiEnv) (lead : Lead) (_offer : Offer) : Nat × String :=
  match env with
  | .noKey => get_ai_score_fallback lead
  | .withKey res => get_ai_score_delegated res

/-- `score_lead` (lines 219-258): rule sub-scores, classifier score,
threshold intent, concatenated reasoning. -/
def score_lead (env : AiEnv) (lead : Lead) (offer : Offer) : ScoredLead :=
  let role_score := calculate_role_score lead.role
  let industry_score := calculate_industry_score lead.industry offer.ideal_use_cases
  let completeness_score := calculate_data_completeness_score lead
  let rule_score := role_score + industry_score + completeness_score
  let ai := get_ai_score env lead offer
  let ai_score := ai.1
  let ai_reasoning := ai.2
  let final_score := rule_score + ai_score
  let intent := if final_score ≥ 70 then "High"
                else if final_score ≥ 40 then "Medium" else "Low"
  let reasoning_parts :=
    (if role_score > 0 then ["Role relevance: " ++ natToStr role_score ++ " points"] else []) ++
    (if industry_score > 0 then ["Industry match: " ++ natToStr industry_score ++ " points"] else []) ++
    (if completeness_score > 0 then ["Data completeness: " ++ natToStr completeness_score ++ " points"] else []) ++
    ["AI assessment: " ++ ai_reasoning]
  { name := lead.name
    role := lead.role
    company := lead.company
    industry := lead.industry
    location := lead.location
    linkedin_bio := lead.linkedin_bio
    intent := intent
    score := final_score
    reasoning := joinWithSep ". " reasoning_parts
    rule_score := rule_score
    ai_score := ai_score }

/-- The errors the scoring endpoint can surface: the spec calls the
pre-run structural failures (HTTP 400 before any lead is processed)
`ConfigurationError`. -/
inductive ApiError where
  | configError (detail : String)
  deriving DecidableEq, Repr

/-- The process-wide mutable state of src/main.py (lines 51-53): the
current offer (`offer_data`, an empty dict when unset), the current lead
batch and the result batch. -/
structure AppState where
  offer_data : Option Offer
  leads_data : List Lead
  scored_results : List ScoredLead
  deriving DecidableEq, Repr

/-- The scoring loop of `score_leads` (lines 320-322): one sequential
`score_lead` call per lead, in batch order; the counter indexes the
per-lead external-call outcome. -/
def scoreAll (oracle : Nat → AiEnv) (offer : Offer) : Nat → List Lead → List ScoredLead
  | _, [] => []
  | i, lead :: rest => score_lead (oracle i) lead offer :: scoreAll oracle offer (i + 1) rest

/-- `score_leads` (lines 306-329): fail before touching the result store
when no offer or no leads are set, otherwise replace the result batch
wholesale. Returns the raised error (if any) together with the posterior
state. -/
def score_leads (oracle : Nat → AiEnv) (s : AppState) : Option ApiError × AppState :=
  match s.offer_data with
  | none => (some (.configError "No offer data found. Please create an offer first."), s)
  | some offer =>
    match s.leads_data with
    | [] => (some (.configError "No leads found. Please upload leads first."), s)
    | leads => (none, { s with scored_results := scoreAll oracle offer 0 leads })

/-! ### Helper lemmas -/

lemma calculate_role_score_le (role : String) : calculate_role_score role ≤ 20 := by
  simp only [calculate_role_score]
  split_ifs <;> omega

lemma calculate_industry_score_le (industry : String) (ucs : List String) :
    calculate_industry_score industry ucs ≤ 20 := by
  simp only [calculate_industry_score]
  split_ifs <;> omega

lemma calculate_data_completeness_score_le (lead : Lead) :
    calculate_data_completeness_score lead ≤ 10 := by
  unfold calculate_data_completeness_score
  exact Nat.min_le_left _ _

lemma intent_scores_get_mem (s : String) :
    intent_scores_get s = 50 ∨ intent_scores_get s = 30 ∨ intent_scores_get s = 10 := by
  unfold intent_scores_get
  split_ifs <;> simp

lemma get_ai_score_mem (env : AiEnv) (lead : Lead) (offer : Offer) :
    (get_ai_score env lead offer).1 ∈ [10, 20, 25, 30, 35, 40, 50] := by
  cases env with
  | noKey =>
    show (get_ai_score_fallback lead).1 ∈ _
    simp only [get_ai_score_fallback]
    split_ifs <;> simp
  | withKey res =>
    cases res with
    | failure msg => simp [get_ai_score, get_ai_score_delegated]
    | success t =>
      show (get_ai_score_delegated (CallResult.success t)).1 ∈ _
      unfold get_ai_score_delegated
      rcases intent_scores_get_mem (parseResponse t).1 with h | h | h <;> simp [h]

lemma get_ai_score_bounds (env : AiEnv) (lead : Lead) (offer : Offer) :
    10 ≤ (get_ai_score env lead offer).1 ∧ (get_ai_score env lead offer).1 ≤ 50 := by
  have h := get_ai_score_mem env lead offer
  simp only [List.mem_cons, List.not_mem_nil, or_false] at h
  omega

/-! ### Claims -/

/-- Claim C1: for every Lead and Offer, the ScoredLead produced by
`score_lead` satisfies `score = rule_score + ai_score`, the rule score is
the sum of the role, industry and completeness sub-scores and lies in
`[0, 50]`, and the AI score is one of `{10, 20, 25, 30, 35, 40, 50}` on
every path of `get_ai_score` (delegated parse, delegated failure, and
heuristic fallback). -/
theorem score_lead_invariants (env : AiEnv) (lead : Lead) (offer : Offer) :
    (score_lead env lead offer).score =
      (score_lead env lead offer).rule_score + (score_lead env lead offer).ai_score ∧
    (score_lead env lead offer).rule_score =
      calculate_role_score lead.role +
        calculate_industry_score lead.industry offer.ideal_use_cases +
        calculate_data_completeness_score lead ∧
    (score_lead env lead offer).rule_score ≤ 50 ∧
    (score_lead env lead offer).ai_score ∈ [10, 20, 25, 30, 35, 40, 50] := by
  refine ⟨rfl, rfl, ?_, ?_⟩
  · show calculate_role_score lead.role +
        calculate_industry_score lead.industry offer.ideal_use_cases +
        calculate_data_completeness_score lead ≤ 50
    have h1 := calculate_role_score_le lead.role
    have h2 := calculate_industry_score_le lead.industry offer.ideal_use_cases
    have h3 := calculate_data_completeness_score_le lead
    omega
  · exact get_ai_score_mem env lead offer

/-- Claim C2: the intent label of the ScoredLead produced by `score_lead`
is exactly High when the final score is at least 70, else Medium when it
is at least 40, else Low. -/
theorem score_lead_intent_thresholds (env : AiEnv) (lead : Lead) (offer : Offer) :
    (score_lead env lead offer).intent =
      (if (score_lead env lead offer).score ≥ 70 then "High"
       else if (score_lead env lead offer).score ≥ 40 then "Medium"
       else "Low") := rfl

/-- Claim C3: on the delegated classifier path, every failure of the
external call (network error, non-success HTTP status, or
response-parsing error) is absorbed inside `get_ai_score`: the call
returns normally with `ai_score = 25` and a reasoning string naming the
failure, and `score_lead` still produces a ScoredLead for that lead. -/
theorem get_ai_score_failure_absorbed (msg : String) (lead : Lead) (offer : Offer) :
    get_ai_score (AiEnv.withKey (CallResult.failure msg)) lead offer =
      (25, "AI scoring failed: " ++ msg) ∧
    (score_lead (AiEnv.withKey (CallResult.failure msg)) lead offer).ai_score = 25 ∧
    containsSub (get_ai_score (AiEnv.withKey (CallResult.failure msg)) lead offer).2
      "AI scoring failed" = true := by
  refine ⟨rfl, rfl, ?_⟩
  rfl

/-- Claim C8: for every Lead and Offer, the final score produced by
`score_lead` lies in `[10, 100]`: it is never 0 and never exceeds 100,
because the AI score is at least 10 on every path and the rule score is
at most 50. -/
theorem score_lead_score_range (env : AiEnv) (lead : Lead) (offer : Offer) :
    10 ≤ (score_lead env lead offer).score ∧ (score_lead env lead offer).score ≤ 100 := by
  show 10 ≤ calculate_role_score lead.role +
      calculate_industry_score lead.industry offer.ideal_use_cases +
      calculate_data_completeness_score lead + (get_ai_score env lead offer).1 ∧
    calculate_role_score lead.role +
      calculate_industry_score lead.industry offer.ideal_use_cases +
      calculate_data_completeness_score lead + (get_ai_score env lead offer).1 ≤ 100
  have h1 := calculate_role_score_le lead.role
  have h2 := calculate_industry_score_le lead.industry offer.ideal_use_cases
  have h3 := calculate_data_completeness_score_le lead
  have h4 := get_ai_score_bounds env lead offer
  omega

/-- Claim C5: when the external-service credential is absent,
`get_ai_score` is the fixed decision table over the lead's role and
industry text: decision-maker role AND tech industry gives score 50 with
a reasoning containing "decision-maker in tech industry"; decision-maker
role only gives 40; tech industry only gives 35; neither gives 20. -/
theorem get_ai_score_fallback_table (lead : Lead) (offer : Offer) :
    get_ai_score AiEnv.noKey lead offer =
      (if (∃ kw ∈ high_intent_roles, containsSub (toLowerStr lead.role) kw = true) ∧
          (∃ kw ∈ high_intent_industries, containsSub (toLowerStr lead.industry) kw = true) then
        (50, "Heuristic: decision-maker in tech industry")
       else if ∃ kw ∈ high_intent_roles, containsSub (toLowerStr lead.role) kw = true then
        (40, "Heuristic: decision-maker role")
       else if ∃ kw ∈ high_intent_industries, containsSub (toLowerStr lead.industry) kw = true then
        (35, "Heuristic: tech industry match")
       else (20, "AI disabled: heuristic based on role/industry")) ∧
    containsSub "Heuristic: decision-maker in tech industry"
      "decision-maker in tech industry" = true := by
  constructor
  · show get_ai_score_fallback lead = _
    simp only [get_ai_score_fallback, Bool.and_eq_true, List.any_eq_true]
  · rfl

/-- Claim C6: every role string containing at least one decision-maker
keyword receives `calculate_role_score` 20, even when influencer
keywords are also present: the decision-maker check runs first and
scores never accumulate across matches. -/
theorem calculate_role_score_decision_maker (role : String)
    (h : ∃ kw ∈ decision_makers, containsSub (toLowerStr role) kw = true) :
    calculate_role_score role = 20 := by
  have hany : (decision_makers.any fun kw => containsSub (toLowerStr role) kw) = true :=
    List.any_eq_true.mpr h
  simp [calculate_role_score, hany]

/-- Witness for C6 at a role containing both a decision-maker keyword
("ceo") and an influencer keyword ("manager"). -/
theorem calculate_role_score_decision_maker_witness :
    (∃ kw ∈ decision_makers, containsSub (toLowerStr "CEO and Marketing Manager") kw = true) ∧
    calculate_role_score "CEO and Marketing Manager" = 20 :=
  ⟨by decide, calculate_role_score_decision_maker "CEO and Marketing Manager" (by decide)⟩

/-- Claim C9: the Rule Scorer's decision-maker keyword set and the
heuristic fallback's role keyword set differ: a lead whose role is
"President" scores 20 from `calculate_role_score`, yet the fallback path
of `get_ai_score` does not take a decision-maker branch and returns 20. -/
theorem rule_and_fallback_keyword_sets_differ :
    ∃ lead : Lead, calculate_role_score lead.role = 20 ∧
      ∀ offer : Offer, (get_ai_score AiEnv.noKey lead offer).1 = 20 := by
  refine ⟨{ name := "Pat", role := "President", company := "Acme", industry := "Retail",
            location := "NYC", linkedin_bio := "bio" }, by decide, fun offer => rfl⟩

/-- Claim C10: every lead with at least five of its six fields non-empty
after trimming whitespace receives `calculate_data_completeness_score`
exactly 10, because `min 10 (count * 2)` saturates at five fields. -/
theorem calculate_data_completeness_score_saturates (lead : Lead)
    (h : 5 ≤ ((leadFields lead).filter isComplete).length) :
    calculate_data_completeness_score lead = 10 := by
  unfold calculate_data_completeness_score
  omega

/-- A lead with exactly five non-blank fields (the bio is blank). -/
def leadFiveFields : Lead :=
  { name := "Jane", role := "CEO", company := "Acme", industry := "SaaS",
    location := "NYC", linkedin_bio := "  " }

/-- Witness for C10 at a lead missing one field: it still scores 10. -/
theorem calculate_data_completeness_score_saturates_witness :
    5 ≤ ((leadFields leadFiveFields).filter isComplete).length ∧
    calculate_data_completeness_score leadFiveFields = 10 :=
  ⟨by decide, calculate_data_completeness_score_saturates leadFiveFields (by decide)⟩

lemma scoreAll_length (oracle : Nat → AiEnv) (offer : Offer) :
    ∀ (i : Nat) (ls : List Lead), (scoreAll oracle offer i ls).length = ls.length := by
  intro i ls
  induction ls generalizing i with
  | nil => rfl
  | cons h t ih => simp [scoreAll, ih]

lemma scoreAll_getElem (oracle : Nat → AiEnv) (offer : Offer) :
    ∀ (ls : List Lead) (i j : Nat),
      (scoreAll oracle offer i ls)[j]? =
        (ls[j]?).map (fun l => score_lead (oracle (i + j)) l offer) := by
  intro ls
  induction ls with
  | nil => intro i j; simp [scoreAll]
  | cons h t ih =>
    intro i j
    cases j with
    | zero => simp [scoreAll]
    | succ j =>
      have e : i + (j + 1) = (i + 1) + j := by omega
      simp only [scoreAll, List.getElem?_cons_succ, e]
      exact ih (i + 1) j

/-- Claim C4: `score_leads` fails with a ConfigurationError exactly when
no offer or no leads are set, and then the result store is untouched;
when it does not fail, the result batch is fully replaced with one
ScoredLead per lead, in order, leaving offer and leads unchanged. -/
theorem score_leads_spec (oracle : Nat → AiEnv) (s : AppState) :
    ((score_leads oracle s).1 ≠ none ↔ (s.offer_data = none ∨ s.leads_data = [])) ∧
    ((score_leads oracle s).1 ≠ none → (score_leads oracle s).2 = s) ∧
    ((score_leads oracle s).1 = none →
      (score_leads oracle s).2.offer_data = s.offer_data ∧
      (score_leads oracle s).2.leads_data = s.leads_data ∧
      (score_leads oracle s).2.scored_results.length = s.leads_data.length ∧
      ∀ (i : Nat) (lead : Lead) (offer : Offer),
        s.leads_data[i]? = some lead → s.offer_data = some offer →
        (score_leads oracle s).2.scored_results[i]? =
          some (score_lead (oracle i) lead offer)) := by
  obtain ⟨od, ld, res⟩ := s
  cases od with
  | none => simp [score_leads]
  | some offer =>
    cases ld with
    | nil => simp [score_leads]
    | cons hd tl =>
      refine ⟨by simp [score_leads], by simp [score_leads], fun _ => ⟨rfl, rfl, ?_, ?_⟩⟩
      · exact scoreAll_length oracle offer 0 (hd :: tl)
      · intro i lead off hi hoff
        have hoe : off = offer := by simpa using hoff.symm
        rw [hoe]
        show (scoreAll oracle offer 0 (hd :: tl))[i]? = some (score_lead (oracle i) lead offer)
        rw [scoreAll_getElem]
        simp [hi]

/-- Witness for C4: with no offer set, the run fails and the state is
returned untouched. -/
theorem score_leads_spec_witness :
    (score_leads (fun _ => AiEnv.noKey)
        { offer_data := none, leads_data := [], scored_results := [] }).2 =
      { offer_data := none, leads_data := [], scored_results := [] } :=
  (score_leads_spec (fun _ => AiEnv.noKey)
      { offer_data := none, leads_data := [], scored_results := [] }).2.1 (by decide)

/-- Claim C7: with the heuristic fallback classifier active, re-running
the scoring pipeline on the state produced by a successful run yields the
identical result batch: `score_leads` restricted to the fallback path is
a deterministic function of the offer and the lead batch. -/
theorem score_leads_fallback_idempotent (s t : AppState)
    (h : score_leads (fun _ => AiEnv.noKey) s = (none, t)) :
    score_leads (fun _ => AiEnv.noKey) t = (none, t) := by
  obtain ⟨od, ld, res⟩ := s
  cases od with
  | none => simp [score_leads] at h
  | some offer =>
    cases ld with
    | nil => simp [score_leads] at h
    | cons hd tl =>
      simp only [score_leads, Prod.mk.injEq, true_and] at h
      subst h
      rfl

/-- Demonstration offer from the specification's scenario. -/
def demoOffer : Offer :=
  { name := "CRM Pro", value_props := ["automation"], ideal_use_cases := ["saas", "technology"] }

/-- Demonstration lead from the specification's scenario. -/
def demoLead : Lead :=
  { name := "Jane", role := "CTO", company := "Acme", industry := "SaaS",
    location := "NYC", linkedin_bio := "bio" }

/-- Demonstration state holding the scenario offer and one lead. -/
def demoState : AppState :=
  { offer_data := some demoOffer, leads_data := [demoLead], scored_results := [] }

/-- Witness for C7: a second fallback run on the state left by a first
run reproduces that state exactly. -/
theorem score_leads_fallback_idempotent_witness :
    score_leads (fun _ => AiEnv.noKey) (score_leads (fun _ => AiEnv.noKey) demoState).2 =
      (none, (score_leads (fun _ => AiEnv.noKey) demoState).2) :=
  score_leads_fallback_idempotent demoState _ (by rfl)
